import Mathlib

/-!
# Evidence API (`src/misc/api.go`)

A shallow embedding of the ledger session and transaction mediation code of
`api.go`: the gateway bootstrap `connectGateway` and the four fiber handlers
`AddEvidence`, `GetEvidence`, `UpdateStatus` and `HealthCheck`.

Conventions of the embedding.

* A Go `string` is a sequence of bytes; `string(b)` of a `[]byte` keeps the
  bytes.  A string literal of the source is written `lit "..."`.
* A Go `error` is used by the source only through `err.Error()` (and `%v`,
  which prints the same text), so it is a record holding that text.
* A function returning `([]byte, error)` is an `Except GoError Bytes`.
* Collaborators that live outside `api.go` (fiber's body parser,
  `encoding/json`, the Fabric gateway client, the `config` package, the
  operating system) are parameters: every theorem quantifies over them.
  The two `strconv` renderings are the exception: they are defined here,
  after the Go standard library.
* A `log` call is recorded by its message, without the prefix `log` adds.
* A response body is the JSON value a client reads from what `c.JSON`
  writes: `encoding/json` turns every byte of a Go string that is not part of
  a valid UTF-8 sequence into U+FFFD, and `jsonString` does the same.
* A handler is a function from the ledger state before the request to a
  `Run`: the transaction calls it issued on `api.Contract`, the lines it
  logged, the ledger state afterwards and the response (or a panic).
-/

namespace EvidenceApi

/-! ## Go values -/

/-- Go `[]byte`. -/
abbrev Bytes := List UInt8

/-- Go `string`: an immutable sequence of bytes. -/
abbrev GoString := List UInt8

/-- A string literal of the Go source: the UTF-8 bytes of its text. -/
def lit (s : String) : GoString := s.data.flatMap String.utf8EncodeChar

/-- The Go conversion `string(b)` of a byte slice: the same bytes. -/
def GoString.ofBytes (b : Bytes) : GoString := b

/-- Go string concatenation, as `fmt.Errorf`/`Printf` produce it around a
`%s`/`%v` verb applied to a string or an error. -/
def GoString.concat (xs : List GoString) : GoString := xs.flatten

/-- A Go `error` value (non-nil); `Error` is the text `err.Error()` returns. -/
structure GoError where
  Error : GoString
deriving DecidableEq

/-! ## `strconv` -/

/-- The ASCII digit `'0' + d`. -/
def digitByte (d : Nat) : UInt8 := UInt8.ofNat (48 + d)

/-- Modelled from the spec: `strconv.formatBits` (Go standard library, not among
the sources) for base 10, the digit loop behind `strconv.FormatInt`.  It
writes the decimal digits of `u`, most significant first, in front of `acc`;
the first argument bounds the number of digits (a `uint64` has at most 20). -/
def formatBits : Nat → Nat → List UInt8 → List UInt8
  | 0, _, acc => acc
  | fuel + 1, u, acc =>
    if u < 10 then digitByte u :: acc
    else formatBits fuel (u / 10) (digitByte (u % 10) :: acc)

/-- Modelled from the spec: `strconv.FormatInt(i, 10)` (Go standard library, not
among the sources), which §4.3 describes as the file size rendered in base 10
with no leading zeros or separators.  As in strconv, `u := uint64(i)` is
negated modulo `2^64` when `i < 0`, rendered in decimal, and preceded by `'-'`
when `i < 0`. -/
def FormatInt (i : Int) : GoString :=
  let u : Nat := (i % 2 ^ 64).toNat
  if i < 0 then 45 :: formatBits 20 ((2 ^ 64 - u) % 2 ^ 64) []
  else formatBits 20 u []

/-- Modelled from the spec: `strconv.FormatBool` (Go standard library, not among
the sources), which §4.3 describes as rendering the literal tokens `"true"`
and `"false"`. -/
def FormatBool (b : Bool) : GoString :=
  if b then lit "true" else lit "false"

/-! ## Data model -/

/-- Request type `EvidenceRequest` of `api.go`; `FileSize` is an `int64`. -/
structure EvidenceRequest where
  Name : GoString
  Description : GoString
  CaseID : GoString
  CollectedBy : GoString
  CollectionTimestamp : GoString
  Location : GoString
  CID : GoString
  FileSize : Int
  FileType : GoString
  Checksum : GoString
  PasswordProtected : Bool
deriving DecidableEq

/-- The value range of Go's `int64`. -/
def isInt64 (i : Int) : Prop := -(2 : Int) ^ 63 ≤ i ∧ i < (2 : Int) ^ 63

instance (i : Int) : Decidable (isInt64 i) :=
  inferInstanceAs (Decidable (-(2 : Int) ^ 63 ≤ i ∧ i < (2 : Int) ^ 63))

/-- The anonymous request struct of `UpdateStatus`. -/
structure StatusRequest where
  Status : GoString
deriving DecidableEq

/-! ## fiber: context and response -/

/-- What a handler passes to `c.JSON`, and what the client reads from the
response body: a `fiber.Map` whose values are strings (a JSON object, its
entries listed in source order), or an `EvidenceRequest`. -/
inductive Payload where
  | map (entries : List (GoString × GoString))
  | evidence (e : EvidenceRequest)
deriving DecidableEq

/-- The response a handler leaves on the context. -/
structure Response where
  status : Nat
  body : Payload
deriving DecidableEq

/-- The part of `*fiber.Ctx` the handlers use: the inbound request, its route
parameters, and the response status currently set on the context. -/
structure Ctx where
  request : Bytes
  Params : GoString → GoString
  status : Nat

/-- The fiber call `c.Status(n)`. -/
def Ctx.Status (c : Ctx) (n : Nat) : Ctx := { c with status := n }

/-- Modelled from the spec: `utf8.DecodeRuneInString` (Go standard library, not
among the sources), reduced to the size it returns: the length of the valid
UTF-8 sequence at the head of `s`, and `0` where Go returns `(RuneError, 1)`
or the string is empty.  The lead byte fixes the size and the range accepted
for the second byte (tables `first` and `acceptRanges`); further bytes are
continuation bytes `0x80..0xBF`. -/
def runeLen (s : List UInt8) : Nat :=
  match s with
  | [] => 0
  | s0 :: t =>
    if s0 < 0x80 then 1
    else
      let x : Nat × UInt8 × UInt8 :=
        if 0xC2 ≤ s0 ∧ s0 ≤ 0xDF then (2, 0x80, 0xBF)
        else if s0 = 0xE0 then (3, 0xA0, 0xBF)
        else if s0 = 0xED then (3, 0x80, 0x9F)
        else if 0xE1 ≤ s0 ∧ s0 ≤ 0xEF then (3, 0x80, 0xBF)
        else if s0 = 0xF0 then (4, 0x90, 0xBF)
        else if s0 = 0xF4 then (4, 0x80, 0x8F)
        else if 0xF1 ≤ s0 ∧ s0 ≤ 0xF3 then (4, 0x80, 0xBF)
        else (0, 0, 0)
      if x.1 = 0 then 0
      else
        match t with
        | [] => 0
        | s1 :: t1 =>
          if s1 < x.2.1 ∨ x.2.2 < s1 then 0
          else if x.1 ≤ 2 then 2
          else
            match t1 with
            | [] => 0
            | s2 :: t2 =>
              if s2 < 0x80 ∨ 0xBF < s2 then 0
              else if x.1 ≤ 3 then 3
              else
                match t2 with
                | [] => 0
                | s3 :: _ => if s3 < 0x80 ∨ 0xBF < s3 then 0 else 4

/-- The scan of `encoding/json`'s string encoder, read back as a string: with
`k` bytes of the current valid sequence still to copy, a byte that starts no
valid UTF-8 sequence becomes U+FFFD (`EF BF BD`), every other byte is kept. -/
def coerceFrom : Nat → List UInt8 → List UInt8
  | _, [] => []
  | k + 1, b :: rest => b :: coerceFrom k rest
  | 0, b :: rest =>
    match runeLen (b :: rest) with
    | 0 => 0xEF :: 0xBF :: 0xBD :: coerceFrom 0 rest
    | n + 1 => b :: coerceFrom n rest

/-- Modelled from the spec: the string a client reads from a JSON body (§6, JSON
bodies) that `encoding/json` (Go standard library, not among the sources)
wrote for the Go string `s`.  The escapes the encoder writes decode to the
bytes they stand for, so the only change is that each byte that is not part
of a valid UTF-8 sequence arrives as U+FFFD. -/
def jsonString (s : GoString) : GoString := coerceFrom 0 s

/-- The scan of `utf8.ValidString`, with `k` bytes of the current sequence
still to skip. -/
def validFrom : Nat → List UInt8 → Bool
  | _, [] => true
  | k + 1, _ :: rest => validFrom k rest
  | 0, b :: rest =>
    match runeLen (b :: rest) with
    | 0 => false
    | n + 1 => validFrom n rest

/-- Valid UTF-8, as `utf8.ValidString` decides it. -/
def ValidUTF8 (s : GoString) : Prop := validFrom 0 s = true

instance (s : GoString) : Decidable (ValidUTF8 s) :=
  inferInstanceAs (Decidable (validFrom 0 s = true))

/-- The JSON value of an `EvidenceRequest` as `encoding/json` writes it: every
string field as `jsonString` gives it, the number and the boolean as they are. -/
def EvidenceRequest.jsonValue (e : EvidenceRequest) : EvidenceRequest :=
  { Name := jsonString e.Name
    Description := jsonString e.Description
    CaseID := jsonString e.CaseID
    CollectedBy := jsonString e.CollectedBy
    CollectionTimestamp := jsonString e.CollectionTimestamp
    Location := jsonString e.Location
    CID := jsonString e.CID
    FileSize := e.FileSize
    FileType := jsonString e.FileType
    Checksum := jsonString e.Checksum
    PasswordProtected := e.PasswordProtected }

/-- The JSON value the client reads from the body `json.Marshal(v)` writes: the
keys and the string values pass through `jsonString`. -/
def Payload.jsonValue : Payload → Payload
  | .map entries => .map (entries.map (fun kv => (jsonString kv.1, jsonString kv.2)))
  | .evidence e => .evidence e.jsonValue

/-- The fiber call `c.JSON(v)`: the body is `v` marshalled by `encoding/json`
(fiber's default encoder), given as the JSON value it denotes; the status is
the one set on the context. -/
def Ctx.JSON (c : Ctx) (v : Payload) : Response :=
  { status := c.status, body := v.jsonValue }

/-- The decoders the handlers call; they belong to fiber and `encoding/json`.
`BodyParserEvidence c` is `c.BodyParser(&req)` for `req : EvidenceRequest`,
`BodyParserStatus c` the same for the status struct, and `Unmarshal b` is
`json.Unmarshal(b, &evidence)`. -/
structure Decoders where
  BodyParserEvidence : Ctx → Except GoError EvidenceRequest
  BodyParserStatus : Ctx → Except GoError StatusRequest
  Unmarshal : Bytes → Except GoError EvidenceRequest

/-! ## The ledger contract -/

/-- A transaction call issued on `api.Contract`. -/
inductive LedgerCall where
  | submit (name : GoString) (args : List GoString)
  | evaluate (name : GoString) (args : List GoString)
deriving DecidableEq

/-- The collaborator `*gateway.Contract` over a ledger state `σ`. -/
structure Contract (σ : Type) where
  SubmitTransaction : GoString → List GoString → σ → Except GoError Bytes × σ
  EvaluateTransaction : GoString → List GoString → σ → Except GoError Bytes × σ

/-- Struct `APIHandler` of `api.go`; the pointer `Contract` may be nil. -/
structure APIHandler (σ : Type) where
  Contract : Option (Contract σ)

/-- How a handler ends: it returns with a response, or the goroutine panics
(a transaction call on a nil `Contract`). -/
inductive Outcome where
  | responded (r : Response)
  | panicked
deriving DecidableEq

/-- One execution of a handler. -/
structure Run (σ : Type) where
  calls : List LedgerCall
  logs : List GoString
  ledger : σ
  outcome : Outcome

/-! ## Handlers -/

/-- Handler `APIHandler.AddEvidence`.  On a nil `Contract` Go still evaluates the
arguments and invokes `SubmitTransaction` on the nil receiver, whose body
dereferences it: the call is issued and the handler panics. -/
def AddEvidence {σ : Type} (d : Decoders) (api : APIHandler σ) (c : Ctx) (s : σ) : Run σ :=
  match d.BodyParserEvidence c with
  | .error _ =>
    { calls := [], logs := [], ledger := s,
      outcome := .responded ((c.Status 400).JSON (.map [(lit "error", lit "Invalid input")])) }
  | .ok req =>
    let args : List GoString :=
      [req.Name, req.Description, req.CaseID, req.CollectedBy, req.CollectionTimestamp,
       req.Location, req.CID, FormatInt req.FileSize, req.Checksum,
       FormatBool req.PasswordProtected]
    match api.Contract with
    | none =>
      { calls := [.submit (lit "AddEvidence") args], logs := [], ledger := s,
        outcome := .panicked }
    | some k =>
      match k.SubmitTransaction (lit "AddEvidence") args s with
      | (.error err, s') =>
        { calls := [.submit (lit "AddEvidence") args], logs := [], ledger := s',
          outcome := .responded ((c.Status 500).JSON (.map [(lit "error", err.Error)])) }
      | (.ok result, s') =>
        { calls := [.submit (lit "AddEvidence") args], logs := [], ledger := s',
          outcome := .responded (c.JSON (.map
            [(lit "message", lit "Evidence added successfully"),
             (lit "cid", req.CID),
             (lit "txHash", GoString.ofBytes result)])) }

/-- Handler `APIHandler.GetEvidence`. -/
def GetEvidence {σ : Type} (d : Decoders) (api : APIHandler σ) (c : Ctx) (s : σ) : Run σ :=
  let id := c.Params (lit "id")
  match api.Contract with
  | none =>
    { calls := [.evaluate (lit "GetEvidence") [id]], logs := [], ledger := s,
      outcome := .panicked }
  | some k =>
    match k.EvaluateTransaction (lit "GetEvidence") [id] s with
    | (.error err, s') =>
      { calls := [.evaluate (lit "GetEvidence") [id]], logs := [], ledger := s',
        outcome := .responded ((c.Status 500).JSON (.map [(lit "error", err.Error)])) }
    | (.ok response, s') =>
      let line := GoString.concat [lit "Raw chaincode response: ", GoString.ofBytes response]
      match d.Unmarshal response with
      | .error _ =>
        { calls := [.evaluate (lit "GetEvidence") [id]], logs := [line], ledger := s',
          outcome := .responded ((c.Status 500).JSON (.map
            [(lit "error", lit "Failed to parse response"),
             (lit "raw", GoString.ofBytes response)])) }
      | .ok evidence =>
        { calls := [.evaluate (lit "GetEvidence") [id]], logs := [line], ledger := s',
          outcome := .responded (c.JSON (.evidence evidence)) }

/-- Handler `APIHandler.UpdateStatus`. -/
def UpdateStatus {σ : Type} (d : Decoders) (api : APIHandler σ) (c : Ctx) (s : σ) : Run σ :=
  let id := c.Params (lit "id")
  match d.BodyParserStatus c with
  | .error _ =>
    { calls := [], logs := [], ledger := s,
      outcome := .responded ((c.Status 400).JSON (.map [(lit "error", lit "Invalid input")])) }
  | .ok req =>
    match api.Contract with
    | none =>
      { calls := [.submit (lit "UpdateStatus") [id, req.Status]], logs := [], ledger := s,
        outcome := .panicked }
    | some k =>
      match k.SubmitTransaction (lit "UpdateStatus") [id, req.Status] s with
      | (.error err, s') =>
        { calls := [.submit (lit "UpdateStatus") [id, req.Status]], logs := [], ledger := s',
          outcome := .responded ((c.Status 500).JSON (.map [(lit "error", err.Error)])) }
      | (.ok _, s') =>
        { calls := [.submit (lit "UpdateStatus") [id, req.Status]], logs := [], ledger := s',
          outcome := .responded (c.JSON (.map [(lit "message", lit "Status updated successfully")])) }

/-- Handler `APIHandler.HealthCheck`. -/
def HealthCheck {σ : Type} (_api : APIHandler σ) (c : Ctx) (s : σ) : Run σ :=
  { calls := [], logs := [], ledger := s,
    outcome := .responded (c.JSON (.map
      [(lit "status", lit "ok"), (lit "message", lit "API is running")])) }

/-! ## Gateway bootstrap -/

/-- A collaborator invocation made by `connectGateway`. -/
inductive Step where
  | LoadConfig
  | Stat (path : GoString)
  | Generate
  | NewFileSystemWallet (path : GoString)
  | Getenv (key : GoString)
  | Exists (label : GoString)
  | Connect (connectionPath : GoString) (label : GoString)
  | GetNetwork (channel : GoString)
  | GetContract (name : GoString)
deriving DecidableEq

/-- The collaborators of `connectGateway`, over the types of a wallet `W`, a
gateway `G`, a network `N` and a contract `K`.
`LoadConfig` is `config.LoadConfig()` (wallet path, connection path, channel
name, or an error); `StatIsNotExist p` is `os.IsNotExist(err)` for the error
of `os.Stat(p)`; `Generate` is the error of `config.Generate()`, if any;
`Connect p w u` is `gateway.Connect(WithConfig(FromFile(p)), WithIdentity(w, u))`. -/
structure Collaborators (W G N K : Type) where
  LoadConfig : Except GoError (GoString × GoString × GoString)
  StatIsNotExist : GoString → Bool
  Generate : Option GoError
  NewFileSystemWallet : GoString → Except GoError W
  Getenv : GoString → GoString
  Exists : W → GoString → Bool
  Connect : GoString → W → GoString → Except GoError G
  GetNetwork : G → GoString → Except GoError N
  GetContract : N → GoString → Option K

/-- One execution of `connectGateway`: the collaborator invocations in order,
the lines logged, and the returned pair `(*gateway.Contract, error)`. -/
structure Boot (K : Type) where
  steps : List Step
  logs : List GoString
  contract : Option K
  err : Option GoError

/-- Function `connectGateway` of `api.go`. -/
def connectGateway {W G N K : Type} (w : Collaborators W G N K) : Boot K :=
  match w.LoadConfig with
  | .error err =>
    { steps := [.LoadConfig], logs := [], contract := none,
      err := some ⟨GoString.concat [lit "failed to load config: ", err.Error]⟩ }
  | .ok (walletPath, connectionPath, channelName) =>
    -- the block `if _, err := os.Stat(connectionPath); os.IsNotExist(err)`
    let gen : List Step × List GoString × Option GoError :=
      if w.StatIsNotExist connectionPath then
        ([.Stat connectionPath, .Generate],
         [lit "Connection file not found, generating..."], w.Generate)
      else ([.Stat connectionPath], [], none)
    match gen.2.2 with
    | some err =>
      { steps := .LoadConfig :: gen.1, logs := gen.2.1, contract := none,
        err := some ⟨GoString.concat [lit "failed to generate connection profile: ", err.Error]⟩ }
    | none =>
      match w.NewFileSystemWallet walletPath with
      | .error err =>
        { steps := .LoadConfig :: gen.1 ++ [.NewFileSystemWallet walletPath],
          logs := gen.2.1, contract := none,
          err := some ⟨GoString.concat [lit "failed to create wallet: ", err.Error]⟩ }
      | .ok wallet =>
        let user := if w.Getenv (lit "FABRIC_USER") = lit "" then lit "appUser"
                    else w.Getenv (lit "FABRIC_USER")
        if !w.Exists wallet user then
          { steps := .LoadConfig :: gen.1 ++
              [.NewFileSystemWallet walletPath, .Getenv (lit "FABRIC_USER"), .Exists user],
            logs := gen.2.1, contract := none,
            err := some ⟨GoString.concat
              [lit "identity ", user, lit " not found in wallet, run setup script first"]⟩ }
        else
          match w.Connect connectionPath wallet user with
          | .error err =>
            { steps := .LoadConfig :: gen.1 ++
                [.NewFileSystemWallet walletPath, .Getenv (lit "FABRIC_USER"), .Exists user,
                 .Connect connectionPath user],
              logs := gen.2.1, contract := none,
              err := some ⟨GoString.concat [lit "failed to connect to gateway: ", err.Error]⟩ }
          | .ok gw =>
            match w.GetNetwork gw channelName with
            | .error err =>
              { steps := .LoadConfig :: gen.1 ++
                  [.NewFileSystemWallet walletPath, .Getenv (lit "FABRIC_USER"), .Exists user,
                   .Connect connectionPath user, .GetNetwork channelName],
                logs := gen.2.1, contract := none,
                err := some ⟨GoString.concat [lit "failed to get network: ", err.Error]⟩ }
            | .ok network =>
              let contractName :=
                if w.Getenv (lit "CONTRACT_NAME") = lit "" then lit "evidencecc"
                else w.Getenv (lit "CONTRACT_NAME")
              { steps := .LoadConfig :: gen.1 ++
                  [.NewFileSystemWallet walletPath, .Getenv (lit "FABRIC_USER"), .Exists user,
                   .Connect connectionPath user, .GetNetwork channelName,
                   .Getenv (lit "CONTRACT_NAME"), .GetContract contractName],
                logs := gen.2.1, contract := w.GetContract network contractName,
                err := none }

/-! ## Vocabulary for the statements about the rendered file size -/

/-- An ASCII decimal digit, `'0'` to `'9'`. -/
def isDigit (b : UInt8) : Bool := decide (48 ≤ b.toNat ∧ b.toNat ≤ 57)

/-- Reads `s` as decimal digits, most significant first, continuing the value
`n`; `none` when a byte is not a digit. -/
def readDigitsFrom : Nat → List UInt8 → Option Nat
  | n, [] => some n
  | n, b :: bs => if isDigit b then readDigitsFrom (10 * n + (b.toNat - 48)) bs else none

/-- Reads a decimal integer: an optional leading `'-'` followed by one or more
digits and nothing else. -/
def readDecimal (s : GoString) : Option Int :=
  match s with
  | [] => none
  | b :: rest =>
    if b = 45 then
      if rest = [] then none
      else Option.map (fun (n : Nat) => -(n : Int)) (readDigitsFrom 0 rest)
    else Option.map (fun (n : Nat) => (n : Int)) (readDigitsFrom 0 (b :: rest))

/-! ## Vocabulary for the statements about `connectGateway` -/

/-- The identity label looked up in the wallet: the configured `FABRIC_USER`, or
`"appUser"` when it is empty. -/
def identityLabel {W G N K : Type} (w : Collaborators W G N K) : GoString :=
  if w.Getenv (lit "FABRIC_USER") = lit "" then lit "appUser" else w.Getenv (lit "FABRIC_USER")

/-- The contract name resolved on the network: the configured `CONTRACT_NAME`,
or `"evidencecc"` when it is empty. -/
def contractLabel {W G N K : Type} (w : Collaborators W G N K) : GoString :=
  if w.Getenv (lit "CONTRACT_NAME") = lit "" then lit "evidencecc"
  else w.Getenv (lit "CONTRACT_NAME")

/-- The invocations of the connection-metadata check for the path `cp`: the
`os.Stat`, followed by `config.Generate` exactly when the file is absent. -/
def metadataSteps {W G N K : Type} (w : Collaborators W G N K) (cp : GoString) : List Step :=
  if w.StatIsNotExist cp then [.Stat cp, .Generate] else [.Stat cp]

/-- The bootstrap `b` failed: no contract, the error text `msg`, and exactly the
invocations `steps`. -/
def FailedWith {K : Type} (b : Boot K) (msg : GoString) (steps : List Step) : Prop :=
  b.contract = none ∧ b.err = some ⟨msg⟩ ∧ b.steps = steps

/-! ## Sample collaborators (used to evaluate the handlers on concrete inputs) -/

/-- A request with an empty description and a non-ASCII collector name. -/
def sampleReq : EvidenceRequest :=
  { Name := lit "log.txt", Description := lit "", CaseID := lit "C-7",
    CollectedBy := lit "Zoë", CollectionTimestamp := lit "2024-01-01T00:00:00Z",
    Location := lit "Lab 3", CID := lit "Qm123", FileSize := 42,
    FileType := lit "text/plain", Checksum := lit "abc", PasswordProtected := false }

/-- Toy decoders: an empty body does not decode, any other body decodes to
`sampleReq` (resp. the status `"SEALED"`); a payload unmarshals only when it
starts with an opening brace (byte 123). -/
def sampleDecoders : Decoders :=
  { BodyParserEvidence := fun c =>
      if c.request = [] then .error ⟨lit "unexpected end of JSON input"⟩ else .ok sampleReq
    BodyParserStatus := fun c =>
      if c.request = [] then .error ⟨lit "unexpected end of JSON input"⟩
      else .ok ⟨lit "SEALED"⟩
    Unmarshal := fun b =>
      if b.head? = some 123 then .ok sampleReq
      else .error ⟨lit "invalid character looking for beginning of value"⟩ }

/-- A request context with a body, for the route parameter `id = "E1"`. -/
def sampleCtx : Ctx :=
  { request := lit "text/plain", Params := fun key => if key = lit "id" then lit "E1" else [],
    status := 200 }

/-- A request context whose body is empty. -/
def emptyCtx : Ctx := { sampleCtx with request := [] }

/-- A ledger that counts committed transactions: every submission commits and
returns `"0xdeadbeef"`, every evaluation returns `"corrupt"`. -/
def okContract : Contract Nat :=
  { SubmitTransaction := fun _ _ n => (.ok (lit "0xdeadbeef"), n + 1)
    EvaluateTransaction := fun _ _ n => (.ok (lit "corrupt"), n) }

/-- A ledger whose results are not valid UTF-8: every submission commits and
returns the bytes `FF 30`, every evaluation returns the byte `FF`. -/
def binaryContract : Contract Nat :=
  { SubmitTransaction := fun _ _ n => (.ok [255, 48], n + 1)
    EvaluateTransaction := fun _ _ n => (.ok [255], n) }

/-- A ledger that rejects every call with the error text `62 FF`, which is not
valid UTF-8. -/
def garbledContract : Contract Nat :=
  { SubmitTransaction := fun _ _ n => (.error ⟨[98, 255]⟩, n)
    EvaluateTransaction := fun _ _ n => (.error ⟨[98, 255]⟩, n) }

/-- A ledger that rejects every call. -/
def downContract : Contract Nat :=
  { SubmitTransaction := fun _ _ n => (.error ⟨lit "connection refused"⟩, n)
    EvaluateTransaction := fun _ _ n => (.error ⟨lit "evidence E1 does not exist"⟩, n) }

/-- Toy decoders that read the body as the file type of an otherwise fixed
request, and as the status of a status update. -/
def bodyDecoders : Decoders :=
  { BodyParserEvidence := fun c => .ok { sampleReq with FileType := c.request }
    BodyParserStatus := fun c => .ok ⟨c.request⟩
    Unmarshal := fun _ => .ok sampleReq }

/-- A request with the least `int64` as file size and the flag set. -/
def extremeReq : EvidenceRequest :=
  { sampleReq with FileSize := -9223372036854775808, PasswordProtected := true }

/-- Toy decoders under which every body decodes to `extremeReq`. -/
def extremeDecoders : Decoders :=
  { sampleDecoders with BodyParserEvidence := fun _ => .ok extremeReq }

/-- A request context whose body is `"image/png"`. -/
def pngCtx : Ctx := { sampleCtx with request := lit "image/png" }

/-- A fresh deployment: the configuration loads, the connection file is absent
and its generation succeeds, the wallet opens, no environment variable is
set, and the gateway, the channel and the contract (number 7) resolve;
`enrolled` tells whether the wallet holds the identity `"appUser"`. -/
def sampleWorld (enrolled : Bool) : Collaborators Unit Unit Unit Nat :=
  { LoadConfig := .ok (lit "wallet", lit "connection.yaml", lit "mychannel")
    StatIsNotExist := fun _ => true
    Generate := none
    NewFileSystemWallet := fun _ => .ok ()
    Getenv := fun _ => lit ""
    Exists := fun _ label => enrolled && decide (label = lit "appUser")
    Connect := fun _ _ _ => .ok ()
    GetNetwork := fun _ _ => .ok ()
    GetContract := fun _ name => if name = lit "evidencecc" then some 7 else none }

/-! ## Theorems -/

/-- The transaction call AddEvidence issues once the body has decoded into `req`. -/
theorem AddEvidence_calls_of_decoded {σ : Type} (d : Decoders) (api : APIHandler σ)
    (c : Ctx) (s : σ) (req : EvidenceRequest) (h : d.BodyParserEvidence c = .ok req) :
    (AddEvidence d api c s).calls =
      [.submit (lit "AddEvidence")
        [req.Name, req.Description, req.CaseID, req.CollectedBy, req.CollectionTimestamp,
         req.Location, req.CID, FormatInt req.FileSize, req.Checksum,
         FormatBool req.PasswordProtected]] := by
  unfold AddEvidence
  rw [h]
  cases api.Contract with
  | none => rfl
  | some k =>
    simp only
    split <;> rfl

/-- C1: whenever the body of an AddEvidence request decodes into `req`, the
handler issues exactly the call `submit("AddEvidence", ...)` with the ten
arguments name, description, caseId, collectedBy, collectionTimestamp,
location, cid, `FormatInt fileSize`, checksum, `FormatBool passwordProtected`,
in this order, the eight string fields unchanged. -/
theorem AddEvidence_submits_ten_args {σ : Type} (d : Decoders) (api : APIHandler σ)
    (c : Ctx) (s : σ) (req : EvidenceRequest) (h : d.BodyParserEvidence c = .ok req) :
    (AddEvidence d api c s).calls =
      [.submit (lit "AddEvidence")
        [req.Name, req.Description, req.CaseID, req.CollectedBy, req.CollectionTimestamp,
         req.Location, req.CID, FormatInt req.FileSize, req.Checksum,
         FormatBool req.PasswordProtected]] :=
  AddEvidence_calls_of_decoded d api c s req h

/-- C1 at `sampleReq` (empty description, non-ASCII collector, size 42, flag
unset). -/
theorem AddEvidence_submits_ten_args_witness :
    (AddEvidence sampleDecoders ⟨some okContract⟩ sampleCtx 0).calls =
      [.submit (lit "AddEvidence")
        [lit "log.txt", lit "", lit "C-7", lit "Zoë", lit "2024-01-01T00:00:00Z",
         lit "Lab 3", lit "Qm123", lit "42", lit "abc", lit "false"]] :=
  AddEvidence_submits_ten_args sampleDecoders ⟨some okContract⟩ sampleCtx 0 sampleReq rfl

/-! ### Decimal rendering -/

theorem digitByte_toNat (d : Nat) (h : d < 10) : (digitByte d).toNat = 48 + d := by
  interval_cases d <;> rfl

theorem isDigit_digitByte (d : Nat) (h : d < 10) : isDigit (digitByte d) = true := by
  interval_cases d <;> rfl

theorem digitByte_ne_minus (d : Nat) (h : d < 10) : digitByte d ≠ 45 := by
  interval_cases d <;> decide

theorem digitByte_eq_zero (d : Nat) (h : d < 10) (h0 : digitByte d = 48) : d = 0 := by
  interval_cases d <;> first | rfl | (exfalso; revert h0; decide)

theorem formatBits_acc (fuel u : Nat) (acc : List UInt8) :
    formatBits fuel u acc = formatBits fuel u [] ++ acc := by
  induction fuel generalizing u acc with
  | zero => simp [formatBits]
  | succ f ih =>
    unfold formatBits
    split
    · simp
    · rw [ih, ih (u / 10) [digitByte (u % 10)]]
      simp

theorem formatBits_succ (fuel u : Nat) :
    formatBits (fuel + 1) u [] =
      if u < 10 then [digitByte u] else formatBits fuel (u / 10) [] ++ [digitByte (u % 10)] := by
  conv => lhs; unfold formatBits
  split
  · rfl
  · rw [formatBits_acc]

theorem readDigitsFrom_append (n : Nat) (xs ys : List UInt8) :
    readDigitsFrom n (xs ++ ys) = (readDigitsFrom n xs).bind (fun m => readDigitsFrom m ys) := by
  induction xs generalizing n with
  | nil => simp [readDigitsFrom]
  | cons b bs ih =>
    simp only [List.cons_append, readDigitsFrom]
    split
    · exact ih _
    · rfl

/-- The digits `formatBits` writes for `u < 10 ^ (fuel + 1)`: non-empty, digits
only, no leading zero unless `u = 0`, and they read back as `u`. -/
theorem formatBits_spec (fuel u : Nat) (h : u < 10 ^ (fuel + 1)) :
    formatBits (fuel + 1) u [] ≠ [] ∧
    (formatBits (fuel + 1) u []).all isDigit = true ∧
    ((formatBits (fuel + 1) u []).head? = some 48 → u = 0) ∧
    readDigitsFrom 0 (formatBits (fuel + 1) u []) = some u := by
  induction fuel generalizing u with
  | zero =>
    have hu : u < 10 := by simpa using h
    rw [formatBits_succ]
    simp only [hu, if_true]
    refine ⟨by simp, by simp [isDigit_digitByte u hu], ?_, ?_⟩
    · intro h0
      exact digitByte_eq_zero u hu (by simpa using h0)
    · simp [readDigitsFrom, isDigit_digitByte u hu, digitByte_toNat u hu]
  | succ f ih =>
    rw [formatBits_succ]
    by_cases hu : u < 10
    · simp only [hu, if_true]
      refine ⟨by simp, by simp [isDigit_digitByte u hu], ?_, ?_⟩
      · intro h0
        exact digitByte_eq_zero u hu (by simpa using h0)
      · simp [readDigitsFrom, isDigit_digitByte u hu, digitByte_toNat u hu]
    · simp only [hu, if_false]
      have hq : u / 10 < 10 ^ (f + 1) := by
        rw [Nat.div_lt_iff_lt_mul (by norm_num)]
        rw [pow_succ] at h
        exact h
      have hm : u % 10 < 10 := Nat.mod_lt _ (by norm_num)
      obtain ⟨hne, hall, hhead, hread⟩ := ih (u / 10) hq
      refine ⟨by simp, ?_, ?_, ?_⟩
      · simp [List.all_append, hall, isDigit_digitByte _ hm]
      · intro h0
        rw [List.head?_append_of_ne_nil _ hne] at h0
        have := hhead h0
        omega
      · rw [readDigitsFrom_append, hread]
        simp [readDigitsFrom, isDigit_digitByte _ hm, digitByte_toNat _ hm]
        omega

theorem FormatInt_of_nonneg (i : Int) (h0 : 0 ≤ i) (h : isInt64 i) :
    FormatInt i = formatBits 20 i.toNat [] := by
  unfold isInt64 at h
  unfold FormatInt
  have hn : ¬ i < 0 := by omega
  simp only [hn, if_false]
  congr 1
  omega

theorem FormatInt_of_neg (i : Int) (h0 : i < 0) (h : isInt64 i) :
    FormatInt i = 45 :: formatBits 20 i.natAbs [] := by
  unfold isInt64 at h
  unfold FormatInt
  simp only [h0, if_true]
  congr 2
  omega

/-- The decimal text of an `int64`: it reads back as the number; a non-negative
number is digits only, with a leading zero only for `0`; a negative one is
`'-'` followed by digits that do not start with a zero. -/
theorem FormatInt_spec (i : Int) (h : isInt64 i) :
    readDecimal (FormatInt i) = some i ∧
    (i = 0 → FormatInt i = lit "0") ∧
    (0 ≤ i → (FormatInt i).all isDigit = true ∧ ((FormatInt i).head? = some 48 → i = 0)) ∧
    (i < 0 → ∃ ds, FormatInt i = 45 :: ds ∧ ds ≠ [] ∧ ds.all isDigit = true ∧
      ds.head? ≠ some 48) := by
  have hb := h
  unfold isInt64 at hb
  refine ⟨?_, ?_, ?_, ?_⟩
  · by_cases h0 : 0 ≤ i
    · rw [FormatInt_of_nonneg i h0 h]
      obtain ⟨hne, hall, _, hread⟩ := formatBits_spec 19 i.toNat (by omega)
      cases hfb : formatBits 20 i.toNat [] with
      | nil => exact absurd hfb hne
      | cons b rest =>
        rw [hfb] at hall hread
        have hb45 : b ≠ 45 := by
          intro hb45
          subst hb45
          have h45 : isDigit 45 = false := by decide
          rw [List.all_cons, h45] at hall
          simp at hall
        have hcast : ((i.toNat : Nat) : Int) = i := Int.toNat_of_nonneg h0
        simp only [readDecimal, hb45, if_false, hread, Option.map_some', hcast]
    · have hneg : i < 0 := by omega
      rw [FormatInt_of_neg i hneg h]
      obtain ⟨hne, _, _, hread⟩ := formatBits_spec 19 i.natAbs (by omega)
      have hcast : -((i.natAbs : Nat) : Int) = i := by omega
      simp only [readDecimal, if_true, hne, if_false, hread, Option.map_some', hcast]
  · intro h0
    subst h0
    decide
  · intro h0
    rw [FormatInt_of_nonneg i h0 h]
    obtain ⟨_, hall, hhead, _⟩ := formatBits_spec 19 i.toNat (by omega)
    refine ⟨hall, fun hz => ?_⟩
    have := hhead hz
    omega
  · intro h0
    obtain ⟨hne, hall, hhead, _⟩ := formatBits_spec 19 i.natAbs (by omega)
    refine ⟨_, FormatInt_of_neg i h0 h, hne, hall, fun hz => ?_⟩
    have := hhead hz
    omega


/-- C2: for every `int64` file size of a decoded AddEvidence request, the
eighth argument of the submission is its decimal text: it reads back as the
file size, is `"0"` for zero, is digits only for a non-negative size with a
leading zero only when the size is zero, and is `'-'` followed by digits not
starting with zero for a negative size; the tenth argument is the bytes of
`"true"` when the flag is set and of `"false"` otherwise. -/
theorem AddEvidence_renders_fileSize_and_flag {σ : Type} (d : Decoders)
    (api : APIHandler σ) (c : Ctx) (s : σ) (req : EvidenceRequest)
    (h : d.BodyParserEvidence c = .ok req) (hr : isInt64 req.FileSize) :
    (AddEvidence d api c s).calls =
      [.submit (lit "AddEvidence")
        [req.Name, req.Description, req.CaseID, req.CollectedBy, req.CollectionTimestamp,
         req.Location, req.CID, FormatInt req.FileSize, req.Checksum,
         FormatBool req.PasswordProtected]] ∧
    readDecimal (FormatInt req.FileSize) = some req.FileSize ∧
    (req.FileSize = 0 → FormatInt req.FileSize = lit "0") ∧
    (0 ≤ req.FileSize →
      (FormatInt req.FileSize).all isDigit = true ∧
      ((FormatInt req.FileSize).head? = some 48 → req.FileSize = 0)) ∧
    (req.FileSize < 0 →
      ∃ ds, FormatInt req.FileSize = 45 :: ds ∧ ds ≠ [] ∧ ds.all isDigit = true ∧
        ds.head? ≠ some 48) ∧
    (req.PasswordProtected = true →
      FormatBool req.PasswordProtected = [116, 114, 117, 101]) ∧
    (req.PasswordProtected = false →
      FormatBool req.PasswordProtected = [102, 97, 108, 115, 101]) := by
  obtain ⟨h1, h2, h3, h4⟩ := FormatInt_spec req.FileSize hr
  refine ⟨AddEvidence_calls_of_decoded d api c s req h, h1, h2, h3, h4, ?_, ?_⟩
  · intro hp
    rw [hp]
    decide
  · intro hp
    rw [hp]
    decide

/-- C2 at the file size 42 with the flag unset, and at the least `int64` with
the flag set. -/
theorem AddEvidence_renders_fileSize_and_flag_witness :
    ((AddEvidence sampleDecoders ⟨some okContract⟩ sampleCtx 0).calls =
      [.submit (lit "AddEvidence")
        [lit "log.txt", lit "", lit "C-7", lit "Zoë", lit "2024-01-01T00:00:00Z",
         lit "Lab 3", lit "Qm123", lit "42", lit "abc", lit "false"]] ∧
      readDecimal (lit "42") = some 42) ∧
    ((AddEvidence extremeDecoders ⟨some okContract⟩ sampleCtx 0).calls =
      [.submit (lit "AddEvidence")
        [lit "log.txt", lit "", lit "C-7", lit "Zoë", lit "2024-01-01T00:00:00Z",
         lit "Lab 3", lit "Qm123", lit "-9223372036854775808", lit "abc", lit "true"]] ∧
      readDecimal (lit "-9223372036854775808") = some (-9223372036854775808)) :=
  ⟨⟨(AddEvidence_renders_fileSize_and_flag sampleDecoders ⟨some okContract⟩ sampleCtx 0
        sampleReq rfl (by decide)).1,
    (AddEvidence_renders_fileSize_and_flag sampleDecoders ⟨some okContract⟩ sampleCtx 0
        sampleReq rfl (by decide)).2.1⟩,
   ⟨(AddEvidence_renders_fileSize_and_flag extremeDecoders ⟨some okContract⟩ sampleCtx 0
        extremeReq rfl (by decide)).1,
    (AddEvidence_renders_fileSize_and_flag extremeDecoders ⟨some okContract⟩ sampleCtx 0
        extremeReq rfl (by decide)).2.1⟩⟩

/-! ### Response bodies -/

theorem coerceFrom_of_valid (k : Nat) (s : List UInt8) (h : validFrom k s = true) :
    coerceFrom k s = s := by
  induction s generalizing k with
  | nil => cases k <;> rfl
  | cons b rest ih =>
    cases k with
    | succ k =>
      simp only [validFrom] at h
      simp only [coerceFrom, ih k h]
    | zero =>
      simp only [validFrom] at h
      simp only [coerceFrom]
      cases hn : runeLen (b :: rest) with
      | zero => simp [hn] at h
      | succ n =>
        simp only [hn] at h
        simp only [ih n h]

/-- A valid UTF-8 string reaches the client unchanged. -/
theorem jsonString_of_valid (s : GoString) (h : ValidUTF8 s) : jsonString s = s :=
  coerceFrom_of_valid 0 s h

theorem jsonString_message : jsonString (lit "message") = lit "message" := by decide

theorem jsonString_cid : jsonString (lit "cid") = lit "cid" := by decide

theorem jsonString_txHash : jsonString (lit "txHash") = lit "txHash" := by decide

theorem jsonString_error : jsonString (lit "error") = lit "error" := by decide

theorem jsonString_raw : jsonString (lit "raw") = lit "raw" := by decide

theorem jsonString_added :
    jsonString (lit "Evidence added successfully") = lit "Evidence added successfully" := by
  decide

theorem jsonString_parse_failed :
    jsonString (lit "Failed to parse response") = lit "Failed to parse response" := by
  decide

theorem jsonString_invalid_input :
    jsonString (lit "Invalid input") = lit "Invalid input" := by decide

/-- The response to a failed ledger call: 500 with the error text as JSON
carries it. -/
theorem error_response (c : Ctx) (e : GoError) :
    (c.Status 500).JSON (.map [(lit "error", e.Error)]) =
      { status := 500, body := .map [(lit "error", jsonString e.Error)] } := by
  simp only [Ctx.JSON, Ctx.Status, Payload.jsonValue, List.map, jsonString_error]

/-- C3 (amended): when the body decodes into `req` and the submission succeeds
with result bytes `r`, the response is the envelope
`{message: "Evidence added successfully", cid: c, txHash: t}`, sent with the
status already set on the context, where `c` is the request's cid and `t` is
`string(r)`, each as JSON carries it (a byte outside every valid UTF-8
sequence arrives as U+FFFD); when the cid and `r` are valid UTF-8, `c` is
exactly the cid and `t` exactly `string(r)`. -/
theorem AddEvidence_success_envelope {σ : Type} (d : Decoders) (api : APIHandler σ)
    (c : Ctx) (s : σ) (req : EvidenceRequest) (k : Contract σ) (r : Bytes) (s' : σ)
    (hreq : d.BodyParserEvidence c = .ok req) (hk : api.Contract = some k)
    (hsub : k.SubmitTransaction (lit "AddEvidence")
        [req.Name, req.Description, req.CaseID, req.CollectedBy, req.CollectionTimestamp,
         req.Location, req.CID, FormatInt req.FileSize, req.Checksum,
         FormatBool req.PasswordProtected] s = (.ok r, s')) :
    (AddEvidence d api c s).outcome =
      .responded
        { status := c.status
          body := .map [(lit "message", lit "Evidence added successfully"),
                        (lit "cid", jsonString req.CID),
                        (lit "txHash", jsonString (GoString.ofBytes r))] } ∧
    (ValidUTF8 req.CID → ValidUTF8 (GoString.ofBytes r) →
      (AddEvidence d api c s).outcome =
        .responded
          { status := c.status
            body := .map [(lit "message", lit "Evidence added successfully"),
                          (lit "cid", req.CID),
                          (lit "txHash", GoString.ofBytes r)] }) := by
  have hout : (AddEvidence d api c s).outcome =
      .responded
        { status := c.status
          body := .map [(lit "message", lit "Evidence added successfully"),
                        (lit "cid", jsonString req.CID),
                        (lit "txHash", jsonString (GoString.ofBytes r))] } := by
    unfold AddEvidence
    rw [hreq]
    simp only [hk, hsub, Ctx.JSON, Payload.jsonValue, List.map, jsonString_message,
      jsonString_cid, jsonString_txHash, jsonString_added]
  refine ⟨hout, fun hc hr => ?_⟩
  rw [hout, jsonString_of_valid _ hc, jsonString_of_valid _ hr]

/-- C3 at cid `"Qm123"` and ledger result `"0xdeadbeef"`. -/
theorem AddEvidence_success_envelope_witness :
    (AddEvidence sampleDecoders ⟨some okContract⟩ sampleCtx 0).outcome =
      .responded
        { status := 200
          body := .map [(lit "message", lit "Evidence added successfully"),
                        (lit "cid", lit "Qm123"),
                        (lit "txHash", lit "0xdeadbeef")] } :=
  (AddEvidence_success_envelope sampleDecoders ⟨some okContract⟩ sampleCtx 0 sampleReq
    okContract (lit "0xdeadbeef") 1 rfl rfl rfl).2 (by decide) (by decide)

/-- C3 as stated fails: the body decodes, the submission succeeds with the
result bytes `FF 30`, and the response carries `txHash = EF BF BD 30`, not the
result read as a string. -/
theorem AddEvidence_txHash_not_verbatim :
    sampleDecoders.BodyParserEvidence sampleCtx = .ok sampleReq ∧
    binaryContract.SubmitTransaction (lit "AddEvidence")
        [lit "log.txt", lit "", lit "C-7", lit "Zoë", lit "2024-01-01T00:00:00Z",
         lit "Lab 3", lit "Qm123", lit "42", lit "abc", lit "false"] 0 = (.ok [255, 48], 1) ∧
    (AddEvidence sampleDecoders ⟨some binaryContract⟩ sampleCtx 0).outcome =
      .responded
        { status := 200
          body := .map [(lit "message", lit "Evidence added successfully"),
                        (lit "cid", lit "Qm123"),
                        (lit "txHash", [239, 191, 189, 48])] } ∧
    (∀ st : Nat, (AddEvidence sampleDecoders ⟨some binaryContract⟩ sampleCtx 0).outcome ≠
      .responded
        { status := st
          body := .map [(lit "message", lit "Evidence added successfully"),
                        (lit "cid", lit "Qm123"),
                        (lit "txHash", GoString.ofBytes [255, 48])] }) := by
  have hout : (AddEvidence sampleDecoders ⟨some binaryContract⟩ sampleCtx 0).outcome =
      .responded
        { status := 200
          body := .map [(lit "message", lit "Evidence added successfully"),
                        (lit "cid", lit "Qm123"),
                        (lit "txHash", [239, 191, 189, 48])] } := by decide
  refine ⟨rfl, rfl, hout, fun st h => ?_⟩
  rw [hout] at h
  have hb : Payload.map [(lit "message", lit "Evidence added successfully"),
        (lit "cid", lit "Qm123"), (lit "txHash", [239, 191, 189, 48])] =
      Payload.map [(lit "message", lit "Evidence added successfully"),
        (lit "cid", lit "Qm123"), (lit "txHash", GoString.ofBytes [255, 48])] :=
    congrArg Response.body (Outcome.responded.inj h)
  exact absurd hb (by decide)

/-- C4: when decoding the request body fails, AddEvidence and UpdateStatus
answer 400 with `{error: "Invalid input"}`, issue no transaction call and
leave the ledger as it was. -/
theorem decode_failure_is_400_without_ledger_call {σ : Type} (d : Decoders)
    (api : APIHandler σ) (c : Ctx) (s : σ) :
    (∀ e, d.BodyParserEvidence c = .error e →
      (AddEvidence d api c s).outcome =
          .responded { status := 400, body := .map [(lit "error", lit "Invalid input")] } ∧
        (AddEvidence d api c s).calls = [] ∧ (AddEvidence d api c s).ledger = s) ∧
    (∀ e, d.BodyParserStatus c = .error e →
      (UpdateStatus d api c s).outcome =
          .responded { status := 400, body := .map [(lit "error", lit "Invalid input")] } ∧
        (UpdateStatus d api c s).calls = [] ∧ (UpdateStatus d api c s).ledger = s) := by
  constructor
  · intro e h
    unfold AddEvidence
    rw [h]
    exact ⟨rfl, rfl, rfl⟩
  · intro e h
    refine ⟨?_, ?_, ?_⟩ <;>
      simp [UpdateStatus, h, Ctx.JSON, Ctx.Status, Payload.jsonValue, jsonString_error,
        jsonString_invalid_input]

/-- C4 on an empty body, against a ledger that would accept every call. -/
theorem decode_failure_is_400_without_ledger_call_witness :
    ((AddEvidence sampleDecoders ⟨some okContract⟩ emptyCtx 0).outcome =
        .responded { status := 400, body := .map [(lit "error", lit "Invalid input")] } ∧
      (AddEvidence sampleDecoders ⟨some okContract⟩ emptyCtx 0).calls = [] ∧
      (AddEvidence sampleDecoders ⟨some okContract⟩ emptyCtx 0).ledger = 0) ∧
    ((UpdateStatus sampleDecoders ⟨some okContract⟩ emptyCtx 0).outcome =
        .responded { status := 400, body := .map [(lit "error", lit "Invalid input")] } ∧
      (UpdateStatus sampleDecoders ⟨some okContract⟩ emptyCtx 0).calls = [] ∧
      (UpdateStatus sampleDecoders ⟨some okContract⟩ emptyCtx 0).ledger = 0) :=
  ⟨(decode_failure_is_400_without_ledger_call sampleDecoders ⟨some okContract⟩ emptyCtx 0).1
      ⟨lit "unexpected end of JSON input"⟩ rfl,
   (decode_failure_is_400_without_ledger_call sampleDecoders ⟨some okContract⟩ emptyCtx 0).2
      ⟨lit "unexpected end of JSON input"⟩ rfl⟩

/-- C5 (amended): when the transaction call of AddEvidence, GetEvidence or
UpdateStatus returns an error `e`, the handler answers 500 with `{error: m}`
where `m` is the text `e.Error()` as JSON carries it (a byte outside every
valid UTF-8 sequence arrives as U+FFFD), and exactly that text when it is
valid UTF-8. -/
theorem ledger_error_is_500_with_message {σ : Type} (d : Decoders) (api : APIHandler σ)
    (c : Ctx) (s : σ) (k : Contract σ) (hk : api.Contract = some k) :
    (∀ req e s', d.BodyParserEvidence c = .ok req →
      k.SubmitTransaction (lit "AddEvidence")
        [req.Name, req.Description, req.CaseID, req.CollectedBy, req.CollectionTimestamp,
         req.Location, req.CID, FormatInt req.FileSize, req.Checksum,
         FormatBool req.PasswordProtected] s = (.error e, s') →
      (AddEvidence d api c s).outcome =
          .responded { status := 500, body := .map [(lit "error", jsonString e.Error)] } ∧
        (ValidUTF8 e.Error → (AddEvidence d api c s).outcome =
          .responded { status := 500, body := .map [(lit "error", e.Error)] })) ∧
    (∀ e s', k.EvaluateTransaction (lit "GetEvidence") [c.Params (lit "id")] s = (.error e, s') →
      (GetEvidence d api c s).outcome =
          .responded { status := 500, body := .map [(lit "error", jsonString e.Error)] } ∧
        (ValidUTF8 e.Error → (GetEvidence d api c s).outcome =
          .responded { status := 500, body := .map [(lit "error", e.Error)] })) ∧
    (∀ req e s', d.BodyParserStatus c = .ok req →
      k.SubmitTransaction (lit "UpdateStatus") [c.Params (lit "id"), req.Status] s
        = (.error e, s') →
      (UpdateStatus d api c s).outcome =
          .responded { status := 500, body := .map [(lit "error", jsonString e.Error)] } ∧
        (ValidUTF8 e.Error → (UpdateStatus d api c s).outcome =
          .responded { status := 500, body := .map [(lit "error", e.Error)] })) := by
  refine ⟨?_, ?_, ?_⟩
  · intro req e s' hreq hsub
    have hout : (AddEvidence d api c s).outcome =
        .responded { status := 500, body := .map [(lit "error", jsonString e.Error)] } := by
      unfold AddEvidence
      rw [hreq]
      simp only [hk, hsub, error_response]
    refine ⟨hout, fun hv => ?_⟩
    rw [hout, jsonString_of_valid _ hv]
  · intro e s' hev
    have hout : (GetEvidence d api c s).outcome =
        .responded { status := 500, body := .map [(lit "error", jsonString e.Error)] } := by
      unfold GetEvidence
      simp only [hk, hev, error_response]
    refine ⟨hout, fun hv => ?_⟩
    rw [hout, jsonString_of_valid _ hv]
  · intro req e s' hreq hsub
    have hout : (UpdateStatus d api c s).outcome =
        .responded { status := 500, body := .map [(lit "error", jsonString e.Error)] } := by
      unfold UpdateStatus
      simp only [hreq, hk, hsub, error_response]
    refine ⟨hout, fun hv => ?_⟩
    rw [hout, jsonString_of_valid _ hv]

/-- C5 against a ledger that rejects every call: each handler answers 500 with
the ledger's own message. -/
theorem ledger_error_is_500_with_message_witness :
    (AddEvidence sampleDecoders ⟨some downContract⟩ sampleCtx 0).outcome =
        .responded { status := 500, body := .map [(lit "error", lit "connection refused")] } ∧
    (GetEvidence sampleDecoders ⟨some downContract⟩ sampleCtx 0).outcome =
        .responded { status := 500,
                     body := .map [(lit "error", lit "evidence E1 does not exist")] } ∧
    (UpdateStatus sampleDecoders ⟨some downContract⟩ sampleCtx 0).outcome =
        .responded { status := 500, body := .map [(lit "error", lit "connection refused")] } :=
  ⟨((ledger_error_is_500_with_message sampleDecoders ⟨some downContract⟩ sampleCtx 0
      downContract rfl).1 sampleReq ⟨lit "connection refused"⟩ 0 rfl rfl).2 (by decide),
   ((ledger_error_is_500_with_message sampleDecoders ⟨some downContract⟩ sampleCtx 0
      downContract rfl).2.1 ⟨lit "evidence E1 does not exist"⟩ 0 rfl).2 (by decide),
   ((ledger_error_is_500_with_message sampleDecoders ⟨some downContract⟩ sampleCtx 0
      downContract rfl).2.2 ⟨lit "SEALED"⟩ ⟨lit "connection refused"⟩ 0 rfl rfl).2
      (by decide)⟩

/-- C5 as stated fails: the evaluation of GetEvidence returns an error whose
text is the bytes `62 FF`, and the response carries
`error = 62 EF BF BD`, not that text. -/
theorem ledger_error_text_not_verbatim :
    garbledContract.EvaluateTransaction (lit "GetEvidence") [sampleCtx.Params (lit "id")] 0 =
      (.error ⟨[98, 255]⟩, 0) ∧
    (GetEvidence sampleDecoders ⟨some garbledContract⟩ sampleCtx 0).outcome =
      .responded { status := 500, body := .map [(lit "error", [98, 239, 191, 189])] } ∧
    (GetEvidence sampleDecoders ⟨some garbledContract⟩ sampleCtx 0).outcome ≠
      .responded { status := 500, body := .map [(lit "error", [98, 255])] } := by
  refine ⟨rfl, ?_, ?_⟩ <;> decide

/-- C6 (amended): when `evaluate("GetEvidence", [id])` succeeds with bytes `b`
that do not unmarshal, GetEvidence answers 500 with
`{error: "Failed to parse response", raw: s}` where `s` is `string(b)` as JSON
carries it (a byte outside every valid UTF-8 sequence arrives as U+FFFD), and
exactly `string(b)` when `b` is valid UTF-8. -/
theorem GetEvidence_decode_failure_keeps_raw {σ : Type} (d : Decoders) (api : APIHandler σ)
    (c : Ctx) (s : σ) (k : Contract σ) (b : Bytes) (s' : σ) (e : GoError)
    (hk : api.Contract = some k)
    (hev : k.EvaluateTransaction (lit "GetEvidence") [c.Params (lit "id")] s = (.ok b, s'))
    (hdec : d.Unmarshal b = .error e) :
    (GetEvidence d api c s).outcome =
      .responded
        { status := 500
          body := .map [(lit "error", lit "Failed to parse response"),
                        (lit "raw", jsonString (GoString.ofBytes b))] } ∧
    (ValidUTF8 (GoString.ofBytes b) →
      (GetEvidence d api c s).outcome =
        .responded
          { status := 500
            body := .map [(lit "error", lit "Failed to parse response"),
                          (lit "raw", GoString.ofBytes b)] }) := by
  have hout : (GetEvidence d api c s).outcome =
      .responded
        { status := 500
          body := .map [(lit "error", lit "Failed to parse response"),
                        (lit "raw", jsonString (GoString.ofBytes b))] } := by
    unfold GetEvidence
    simp only [hk, hev, hdec, Ctx.JSON, Ctx.Status, Payload.jsonValue, List.map,
      jsonString_error, jsonString_raw, jsonString_parse_failed]
  refine ⟨hout, fun hv => ?_⟩
  rw [hout, jsonString_of_valid _ hv]

/-- C6 at `GET /evidence/E1` with the ledger returning `"corrupt"`. -/
theorem GetEvidence_decode_failure_keeps_raw_witness :
    (GetEvidence sampleDecoders ⟨some okContract⟩ sampleCtx 0).outcome =
      .responded
        { status := 500
          body := .map [(lit "error", lit "Failed to parse response"),
                        (lit "raw", lit "corrupt")] } :=
  (GetEvidence_decode_failure_keeps_raw sampleDecoders ⟨some okContract⟩ sampleCtx 0
    okContract (lit "corrupt") 0
    ⟨lit "invalid character looking for beginning of value"⟩ rfl rfl rfl).2 (by decide)

/-- C6 as stated fails: the evaluation succeeds with the single byte `FF`, which
does not unmarshal, and the response carries `raw = EF BF BD`, not the byte
read as a string. -/
theorem GetEvidence_raw_not_verbatim :
    binaryContract.EvaluateTransaction (lit "GetEvidence") [sampleCtx.Params (lit "id")] 0 =
      (.ok [255], 0) ∧
    sampleDecoders.Unmarshal [255] =
      .error ⟨lit "invalid character looking for beginning of value"⟩ ∧
    (GetEvidence sampleDecoders ⟨some binaryContract⟩ sampleCtx 0).outcome =
      .responded
        { status := 500
          body := .map [(lit "error", lit "Failed to parse response"),
                        (lit "raw", [239, 191, 189])] } ∧
    (GetEvidence sampleDecoders ⟨some binaryContract⟩ sampleCtx 0).outcome ≠
      .responded
        { status := 500
          body := .map [(lit "error", lit "Failed to parse response"),
                        (lit "raw", GoString.ofBytes [255])] } := by
  refine ⟨rfl, rfl, ?_, ?_⟩ <;> decide

/-- C7: whenever the body of an UpdateStatus request decodes into `req`, the
handler issues exactly one call, `submit("UpdateStatus", [id, req.Status])`,
whatever the status string and whatever the ledger answers; the ledger is
left in the state that single submission produced. -/
theorem UpdateStatus_submits_exactly_once {σ : Type} (d : Decoders) (api : APIHandler σ)
    (c : Ctx) (s : σ) (req : StatusRequest) (h : d.BodyParserStatus c = .ok req) :
    (UpdateStatus d api c s).calls =
        [.submit (lit "UpdateStatus") [c.Params (lit "id"), req.Status]] ∧
    (∀ k, api.Contract = some k →
      (UpdateStatus d api c s).ledger =
        (k.SubmitTransaction (lit "UpdateStatus") [c.Params (lit "id"), req.Status] s).2) := by
  unfold UpdateStatus
  simp only [h]
  cases hk : api.Contract with
  | none => simp
  | some k =>
    simp only
    constructor
    · split <;> rfl
    · intro k' hk'
      cases hk'
      split <;> simp_all

/-- C7 at id `"E1"` with the empty status, against a ledger that rejects every
call: one submission, no second one. -/
theorem UpdateStatus_submits_exactly_once_witness :
    (UpdateStatus bodyDecoders ⟨some downContract⟩ emptyCtx 0).calls =
        [.submit (lit "UpdateStatus") [lit "E1", lit ""]] ∧
    (∀ k, (⟨some downContract⟩ : APIHandler Nat).Contract = some k →
      (UpdateStatus bodyDecoders ⟨some downContract⟩ emptyCtx 0).ledger =
        (k.SubmitTransaction (lit "UpdateStatus") [lit "E1", lit ""] 0).2) :=
  UpdateStatus_submits_exactly_once bodyDecoders ⟨some downContract⟩ emptyCtx 0 ⟨lit ""⟩ rfl

/-- C8: for every handler (with or without a contract), request and ledger
state, HealthCheck issues no transaction call, leaves the ledger unchanged,
does not depend on the handler, and answers `{status: "ok", message: "API is
running"}`. -/
theorem HealthCheck_is_independent_of_the_session {σ : Type} (api : APIHandler σ)
    (c : Ctx) (s : σ) :
    (HealthCheck api c s).calls = [] ∧
    (HealthCheck api c s).ledger = s ∧
    (HealthCheck api c s).outcome =
      .responded
        { status := c.status
          body := .map [(lit "status", lit "ok"), (lit "message", lit "API is running")] } ∧
    (∀ api' : APIHandler σ, HealthCheck api' c s = HealthCheck api c s) :=
  ⟨rfl, rfl, rfl, fun _ => rfl⟩

/-- C10: two AddEvidence requests that decode to requests differing only in
`FileType` produce the same transaction call; with the same reply of the
ledger to that call (and the same status set on the context) they produce the
same response, and on the same handler and ledger state the same run. -/
theorem AddEvidence_ignores_FileType {σ : Type} (d : Decoders) (c1 c2 : Ctx)
    (req : EvidenceRequest) (ft : GoString)
    (h1 : d.BodyParserEvidence c1 = .ok req)
    (h2 : d.BodyParserEvidence c2 = .ok { req with FileType := ft }) :
    (∀ (api1 api2 : APIHandler σ) (s1 s2 : σ),
      (AddEvidence d api1 c1 s1).calls = (AddEvidence d api2 c2 s2).calls) ∧
    (∀ (k1 k2 : Contract σ) (s1 s2 : σ), c1.status = c2.status →
      (k1.SubmitTransaction (lit "AddEvidence")
        [req.Name, req.Description, req.CaseID, req.CollectedBy, req.CollectionTimestamp,
         req.Location, req.CID, FormatInt req.FileSize, req.Checksum,
         FormatBool req.PasswordProtected] s1).1 =
      (k2.SubmitTransaction (lit "AddEvidence")
        [req.Name, req.Description, req.CaseID, req.CollectedBy, req.CollectionTimestamp,
         req.Location, req.CID, FormatInt req.FileSize, req.Checksum,
         FormatBool req.PasswordProtected] s2).1 →
      (AddEvidence d ⟨some k1⟩ c1 s1).outcome = (AddEvidence d ⟨some k2⟩ c2 s2).outcome) ∧
    (∀ (api : APIHandler σ) (s : σ), c1.status = c2.status →
      AddEvidence d api c1 s = AddEvidence d api c2 s) := by
  refine ⟨?_, ?_, ?_⟩
  · intro api1 api2 s1 s2
    rw [AddEvidence_calls_of_decoded d api1 c1 s1 req h1,
      AddEvidence_calls_of_decoded d api2 c2 s2 _ h2]
  · intro k1 k2 s1 s2 hst hrep
    unfold AddEvidence
    rw [h1, h2]
    simp only
    rcases hr1 : k1.SubmitTransaction (lit "AddEvidence")
        [req.Name, req.Description, req.CaseID, req.CollectedBy, req.CollectionTimestamp,
         req.Location, req.CID, FormatInt req.FileSize, req.Checksum,
         FormatBool req.PasswordProtected] s1 with ⟨r1, t1⟩
    rcases hr2 : k2.SubmitTransaction (lit "AddEvidence")
        [req.Name, req.Description, req.CaseID, req.CollectedBy, req.CollectionTimestamp,
         req.Location, req.CID, FormatInt req.FileSize, req.Checksum,
         FormatBool req.PasswordProtected] s2 with ⟨r2, t2⟩
    rw [hr1, hr2] at hrep
    simp only at hrep
    subst hrep
    cases r1 <;> simp [Ctx.JSON, Ctx.Status, hst]
  · intro api s hst
    unfold AddEvidence
    rw [h1, h2]
    cases api.Contract with
    | none => rfl
    | some k =>
      simp only
      split <;> simp [Ctx.JSON, Ctx.Status, hst]

/-- C10 at two bodies that decode to `sampleReq` with the file types
`"text/plain"` and `"image/png"`. -/
theorem AddEvidence_ignores_FileType_witness :
    (AddEvidence bodyDecoders ⟨some okContract⟩ sampleCtx 0).calls =
        (AddEvidence bodyDecoders ⟨some downContract⟩ pngCtx 5).calls ∧
    AddEvidence bodyDecoders ⟨some okContract⟩ sampleCtx 0 =
        AddEvidence bodyDecoders ⟨some okContract⟩ pngCtx 0 :=
  ⟨(AddEvidence_ignores_FileType bodyDecoders sampleCtx pngCtx
      { sampleReq with FileType := lit "text/plain" } (lit "image/png") rfl rfl).1
      ⟨some okContract⟩ ⟨some downContract⟩ 0 5,
   (AddEvidence_ignores_FileType bodyDecoders sampleCtx pngCtx
      { sampleReq with FileType := lit "text/plain" } (lit "image/png") rfl rfl).2.2
      ⟨some okContract⟩ 0 rfl⟩

/-! ### Gateway bootstrap -/

/-- A contract returned by `connectGateway` comes with a nil error and from a run
in which every collaborator succeeded. -/
theorem connectGateway_contract_inv {W G N K : Type} (w : Collaborators W G N K) :
    (∀ k, (connectGateway w).contract = some k →
      (connectGateway w).err = none ∧
      ∃ wp cp ch wal gw net,
        w.LoadConfig = .ok (wp, cp, ch) ∧
        (w.StatIsNotExist cp = true → w.Generate = none) ∧
        w.NewFileSystemWallet wp = .ok wal ∧
        w.Exists wal (identityLabel w) = true ∧
        w.Connect cp wal (identityLabel w) = .ok gw ∧
        w.GetNetwork gw ch = .ok net ∧
        w.GetContract net (contractLabel w) = some k) := by
  unfold identityLabel contractLabel connectGateway
  generalize (if w.Getenv (lit "FABRIC_USER") = lit "" then lit "appUser"
    else w.Getenv (lit "FABRIC_USER")) = user
  generalize (if w.Getenv (lit "CONTRACT_NAME") = lit "" then lit "evidencecc"
    else w.Getenv (lit "CONTRACT_NAME")) = cname
  intro k
  rcases hL : w.LoadConfig with e | ⟨wp, cp, ch⟩
  · simp
  · have hgen : (w.StatIsNotExist cp = true ∧ ∃ e, w.Generate = some e) ∨
        (w.StatIsNotExist cp = true → w.Generate = none) := by
      cases w.StatIsNotExist cp <;> cases w.Generate <;> simp
    rcases hgen with ⟨hS, e, hG⟩ | hgen
    · simp [hS, hG]
    · have hg2 : (if w.StatIsNotExist cp = true then
            ([Step.Stat cp, Step.Generate],
              [lit "Connection file not found, generating..."], w.Generate)
          else ([Step.Stat cp], [], none)).2.2 = none := by
        split
        · exact hgen (by assumption)
        · rfl
      simp only [hg2]
      rcases hW : w.NewFileSystemWallet wp with e | wal
      · simp
      · cases hE : w.Exists wal user
        · simp [hE]
        · rcases hC : w.Connect cp wal user with e | gw
          · simp [hE, hC]
          · rcases hN : w.GetNetwork gw ch with e | net
            · simp [hE, hC, hN]
            · simp only [hE, hC, hN, Bool.not_true, Bool.false_eq_true, ↓reduceIte]
              intro h
              exact ⟨trivial, wp, cp, ch, wal, gw, net, rfl, hgen, hW, hE, hC, hN, h⟩

/-- Metadata generation is invoked only when the connection file is absent. -/
theorem connectGateway_generate_inv {W G N K : Type} (w : Collaborators W G N K) :
    Step.Generate ∈ (connectGateway w).steps →
      ∃ wp cp ch, w.LoadConfig = .ok (wp, cp, ch) ∧ w.StatIsNotExist cp = true := by
  unfold connectGateway
  rcases hL : w.LoadConfig with e | ⟨wp, cp, ch⟩
  · simp
  · cases hS : w.StatIsNotExist cp
    · simp only [hS, Bool.false_eq_true, ↓reduceIte]
      repeat' split
      all_goals simp
    · intro _
      exact ⟨wp, cp, ch, rfl, hS⟩

/-- The result and the invocations of `connectGateway` along each path after a
successful config load. -/
theorem connectGateway_after_config {W G N K : Type} (w : Collaborators W G N K) :
    (∀ wp cp ch, w.LoadConfig = .ok (wp, cp, ch) →
      (∀ e, w.StatIsNotExist cp = true → w.Generate = some e →
        FailedWith (connectGateway w)
          (GoString.concat [lit "failed to generate connection profile: ", e.Error])
          [.LoadConfig, .Stat cp, .Generate]) ∧
      ((w.StatIsNotExist cp = true → w.Generate = none) →
        (∀ e, w.NewFileSystemWallet wp = .error e →
          FailedWith (connectGateway w)
            (GoString.concat [lit "failed to create wallet: ", e.Error])
            (.LoadConfig :: metadataSteps w cp ++ [.NewFileSystemWallet wp])) ∧
        (∀ wal, w.NewFileSystemWallet wp = .ok wal →
          (w.Exists wal (identityLabel w) = false →
            FailedWith (connectGateway w)
              (GoString.concat [lit "identity ", identityLabel w,
                lit " not found in wallet, run setup script first"])
              (.LoadConfig :: metadataSteps w cp ++
                [.NewFileSystemWallet wp, .Getenv (lit "FABRIC_USER"),
                 .Exists (identityLabel w)])) ∧
          (w.Exists wal (identityLabel w) = true →
            (∀ e, w.Connect cp wal (identityLabel w) = .error e →
              FailedWith (connectGateway w)
                (GoString.concat [lit "failed to connect to gateway: ", e.Error])
                (.LoadConfig :: metadataSteps w cp ++
                  [.NewFileSystemWallet wp, .Getenv (lit "FABRIC_USER"),
                   .Exists (identityLabel w), .Connect cp (identityLabel w)])) ∧
            (∀ gw, w.Connect cp wal (identityLabel w) = .ok gw →
              (∀ e, w.GetNetwork gw ch = .error e →
                FailedWith (connectGateway w)
                  (GoString.concat [lit "failed to get network: ", e.Error])
                  (.LoadConfig :: metadataSteps w cp ++
                    [.NewFileSystemWallet wp, .Getenv (lit "FABRIC_USER"),
                     .Exists (identityLabel w), .Connect cp (identityLabel w),
                     .GetNetwork ch])) ∧
              (∀ net, w.GetNetwork gw ch = .ok net →
                (connectGateway w).contract = w.GetContract net (contractLabel w) ∧
                (connectGateway w).err = none ∧
                (connectGateway w).steps =
                  .LoadConfig :: metadataSteps w cp ++
                    [.NewFileSystemWallet wp, .Getenv (lit "FABRIC_USER"),
                     .Exists (identityLabel w), .Connect cp (identityLabel w),
                     .GetNetwork ch, .Getenv (lit "CONTRACT_NAME"),
                     .GetContract (contractLabel w)])))))) := by
  unfold identityLabel contractLabel connectGateway FailedWith metadataSteps
  generalize (if w.Getenv (lit "FABRIC_USER") = lit "" then lit "appUser"
    else w.Getenv (lit "FABRIC_USER")) = user
  generalize (if w.Getenv (lit "CONTRACT_NAME") = lit "" then lit "evidencecc"
    else w.Getenv (lit "CONTRACT_NAME")) = cname
  intro wp cp ch hL
  rw [hL]
  simp only
  constructor
  · intro e hS hG
    simp [hS, hG]
  · intro hgen
    have hg2 : (if w.StatIsNotExist cp = true then
          ([Step.Stat cp, Step.Generate],
            [lit "Connection file not found, generating..."], w.Generate)
        else ([Step.Stat cp], [], none)).2.2 = none := by
      split
      · exact hgen (by assumption)
      · rfl
    simp only [hg2]
    constructor
    · intro e hW
      cases hS : w.StatIsNotExist cp <;> simp [hW]
    · intro wal hW
      constructor
      · intro hE
        cases hS : w.StatIsNotExist cp <;> simp [hW, hE]
      · intro hE
        constructor
        · intro e hC
          cases hS : w.StatIsNotExist cp <;> simp [hW, hE, hC]
        · intro gw hC
          constructor
          · intro e hN
            cases hS : w.StatIsNotExist cp <;> simp [hW, hE, hC, hN]
          · intro net hN
            cases hS : w.StatIsNotExist cp <;> simp [hW, hE, hC, hN]


/-- C9: `connectGateway` returns a contract only when config load, metadata
generation (run only when the metadata file is absent), wallet open, the
credential check for the identity label, gateway connect and channel
resolution have all succeeded, and then with a nil error; when one of them
fails it returns an error and no contract, having invoked nothing after the
failing step. -/
theorem connectGateway_all_or_nothing {W G N K : Type} (w : Collaborators W G N K) :
    (∀ k, (connectGateway w).contract = some k →
      (connectGateway w).err = none ∧
      ∃ wp cp ch wal gw net,
        w.LoadConfig = .ok (wp, cp, ch) ∧
        (w.StatIsNotExist cp = true → w.Generate = none) ∧
        w.NewFileSystemWallet wp = .ok wal ∧
        w.Exists wal (identityLabel w) = true ∧
        w.Connect cp wal (identityLabel w) = .ok gw ∧
        w.GetNetwork gw ch = .ok net ∧
        w.GetContract net (contractLabel w) = some k) ∧
    (∀ e, (connectGateway w).err = some e → (connectGateway w).contract = none) ∧
    (Step.Generate ∈ (connectGateway w).steps →
      ∃ wp cp ch, w.LoadConfig = .ok (wp, cp, ch) ∧ w.StatIsNotExist cp = true) ∧
    (∀ e, w.LoadConfig = .error e →
      FailedWith (connectGateway w)
        (GoString.concat [lit "failed to load config: ", e.Error])
        [.LoadConfig]) ∧
    (∀ wp cp ch, w.LoadConfig = .ok (wp, cp, ch) →
      (∀ e, w.StatIsNotExist cp = true → w.Generate = some e →
        FailedWith (connectGateway w)
          (GoString.concat [lit "failed to generate connection profile: ", e.Error])
          [.LoadConfig, .Stat cp, .Generate]) ∧
      ((w.StatIsNotExist cp = true → w.Generate = none) →
        (∀ e, w.NewFileSystemWallet wp = .error e →
          FailedWith (connectGateway w)
            (GoString.concat [lit "failed to create wallet: ", e.Error])
            (.LoadConfig :: metadataSteps w cp ++ [.NewFileSystemWallet wp])) ∧
        (∀ wal, w.NewFileSystemWallet wp = .ok wal →
          (w.Exists wal (identityLabel w) = false →
            FailedWith (connectGateway w)
              (GoString.concat [lit "identity ", identityLabel w,
                lit " not found in wallet, run setup script first"])
              (.LoadConfig :: metadataSteps w cp ++
                [.NewFileSystemWallet wp, .Getenv (lit "FABRIC_USER"),
                 .Exists (identityLabel w)])) ∧
          (w.Exists wal (identityLabel w) = true →
            (∀ e, w.Connect cp wal (identityLabel w) = .error e →
              FailedWith (connectGateway w)
                (GoString.concat [lit "failed to connect to gateway: ", e.Error])
                (.LoadConfig :: metadataSteps w cp ++
                  [.NewFileSystemWallet wp, .Getenv (lit "FABRIC_USER"),
                   .Exists (identityLabel w), .Connect cp (identityLabel w)])) ∧
            (∀ gw, w.Connect cp wal (identityLabel w) = .ok gw →
              (∀ e, w.GetNetwork gw ch = .error e →
                FailedWith (connectGateway w)
                  (GoString.concat [lit "failed to get network: ", e.Error])
                  (.LoadConfig :: metadataSteps w cp ++
                    [.NewFileSystemWallet wp, .Getenv (lit "FABRIC_USER"),
                     .Exists (identityLabel w), .Connect cp (identityLabel w),
                     .GetNetwork ch])) ∧
              (∀ net, w.GetNetwork gw ch = .ok net →
                (connectGateway w).contract = w.GetContract net (contractLabel w) ∧
                (connectGateway w).err = none ∧
                (connectGateway w).steps =
                  .LoadConfig :: metadataSteps w cp ++
                    [.NewFileSystemWallet wp, .Getenv (lit "FABRIC_USER"),
                     .Exists (identityLabel w), .Connect cp (identityLabel w),
                     .GetNetwork ch, .Getenv (lit "CONTRACT_NAME"),
                     .GetContract (contractLabel w)])))))) := by
  refine ⟨connectGateway_contract_inv w, ?_, connectGateway_generate_inv w, ?_,
    connectGateway_after_config w⟩
  · intro e he
    cases hc : (connectGateway w).contract with
    | none => rfl
    | some k =>
      rw [(connectGateway_contract_inv w k hc).1] at he
      cases he
  · intro e hL
    simp [connectGateway, FailedWith, hL]

/-- C9 on a fresh deployment: without the identity `"appUser"` the bootstrap
fails right after the credential check (no gateway connect); with it the
contract is returned after all ten invocations. -/
theorem connectGateway_all_or_nothing_witness :
    FailedWith (connectGateway (sampleWorld false))
      (lit "identity appUser not found in wallet, run setup script first")
      [.LoadConfig, .Stat (lit "connection.yaml"), .Generate,
       .NewFileSystemWallet (lit "wallet"), .Getenv (lit "FABRIC_USER"),
       .Exists (lit "appUser")] ∧
    ((connectGateway (sampleWorld true)).contract = some 7 ∧
      (connectGateway (sampleWorld true)).err = none ∧
      (connectGateway (sampleWorld true)).steps =
        [.LoadConfig, .Stat (lit "connection.yaml"), .Generate,
         .NewFileSystemWallet (lit "wallet"), .Getenv (lit "FABRIC_USER"),
         .Exists (lit "appUser"), .Connect (lit "connection.yaml") (lit "appUser"),
         .GetNetwork (lit "mychannel"), .Getenv (lit "CONTRACT_NAME"),
         .GetContract (lit "evidencecc")]) :=
  ⟨((((connectGateway_all_or_nothing (sampleWorld false)).2.2.2.2
        (lit "wallet") (lit "connection.yaml") (lit "mychannel") rfl).2 (fun _ => rfl)).2
        () rfl).1 rfl,
   ((((((connectGateway_all_or_nothing (sampleWorld true)).2.2.2.2
        (lit "wallet") (lit "connection.yaml") (lit "mychannel") rfl).2 (fun _ => rfl)).2
        () rfl).2 rfl).2 () rfl).2 () rfl⟩

end EvidenceApi
